import Mathlib

/-!
Verification of the lost-and-found CRUD backend
(`src/lost-and-found-backend.py`) against its specification.

The SQLite-backed item table is embedded as a `Store`: the list of
persisted rows plus the AUTOINCREMENT counter for the next row id
(SQLite's `INTEGER PRIMARY KEY AUTOINCREMENT` assigns monotonically
increasing, never-reused ids starting at 1).  Dates are embedded as
natural numbers (days), text as `String`.  The pydantic `Item` model of
the source has five required fields (`name`, `description`, `location`,
`date_found`, `contact_info`: all non-`Optional`) and one optional field
`claimed : Optional[bool] = False`; request-body validation is embedded
by `parseItem` over an `ItemRequest` of optional fields.

Each HTTP handler of the source is embedded as a pure function from the
store (and its arguments) to the new store and response, with
`HTTPException` for the 404 error paths.
-/

/-- The validated pydantic `Item` model (class `Item`, lines 37-43):
all of `name`, `description`, `location`, `date_found`, `contact_info`
are required; `claimed` is `Optional[bool] = False`. -/
structure Item where
  name : String
  description : String
  location : String
  date_found : Nat
  contact_info : String
  claimed : Bool
deriving Repr, DecidableEq

/-- A persisted row of the `items` table (schema in `init_db`,
lines 15-31): the `Item` fields plus the AUTOINCREMENT `id`.  This is
also the shape of `ItemResponse` (lines 46-47). -/
structure Row where
  id : Nat
  name : String
  description : String
  location : String
  date_found : Nat
  contact_info : String
  claimed : Bool
deriving Repr, DecidableEq

/-- The persistent state: the rows of the `items` table together with
the AUTOINCREMENT counter (the id the next `INSERT` will receive). -/
structure Store where
  rows : List Row
  nextId : Nat
deriving Repr, DecidableEq

/-- The state produced by `init_db` (lines 15-31): an empty `items`
table; SQLite AUTOINCREMENT assigns 1 to the first inserted row. -/
def initStore : Store := ⟨[], 1⟩

/-- The error raised by the source's handlers:
`HTTPException(status_code=404, detail="Item not found")`. -/
structure HTTPException where
  status_code : Nat
  detail : String
deriving Repr, DecidableEq

/-- `SELECT * FROM items WHERE id = ?` followed by `fetchone()`. -/
def lookupRows (l : List Row) (i : Nat) : Option Row :=
  l.find? (fun r => r.id == i)

/-- Row lookup by id on a store. -/
def lookup (s : Store) (i : Nat) : Option Row :=
  lookupRows s.rows i

/-- Handler `create_item` (lines 71-86): the `INSERT` names only the
five data columns, so the persisted row gets the schema default
`claimed = FALSE`; the handler returns `{**item.dict(), "id": item_id}`,
which echoes the request's `claimed` value.  Returns the new store and
the response record. -/
def create_item (s : Store) (item : Item) : Store × Row :=
  let stored : Row :=
    { id := s.nextId, name := item.name, description := item.description,
      location := item.location, date_found := item.date_found,
      contact_info := item.contact_info, claimed := false }
  let response : Row := { stored with claimed := item.claimed }
  (⟨s.rows ++ [stored], s.nextId + 1⟩, response)

/-- Handler `get_item` (lines 127-142): `SELECT ... WHERE id = ?`; 404
if absent, otherwise the row. -/
def get_item (s : Store) (item_id : Nat) : Except HTTPException Row :=
  match lookup s item_id with
  | none => .error ⟨404, "Item not found"⟩
  | some r => .ok r

/-- The row update performed by
`UPDATE items SET claimed = TRUE WHERE id = ?` on a single row. -/
def setClaimed (item_id : Nat) (r : Row) : Row :=
  if r.id == item_id then { r with claimed := true } else r

/-- Handler `claim_item` (lines 89-105): 404 if the id is absent,
otherwise `UPDATE items SET claimed = TRUE WHERE id = ?` and a success
message. -/
def claim_item (s : Store) (item_id : Nat) :
    Except HTTPException (Store × String) :=
  match lookup s item_id with
  | none => .error ⟨404, "Item not found"⟩
  | some _ =>
      .ok (⟨s.rows.map (setClaimed item_id), s.nextId⟩,
        "Item claimed successfully")

/-- Handler `delete_item` (lines 108-124): 404 if the id is absent,
otherwise `DELETE FROM items WHERE id = ?` and a success message.
Deleting does not touch the AUTOINCREMENT counter. -/
def delete_item (s : Store) (item_id : Nat) :
    Except HTTPException (Store × String) :=
  match lookup s item_id with
  | none => .error ⟨404, "Item not found"⟩
  | some _ =>
      .ok (⟨s.rows.filter (fun r => r.id != item_id), s.nextId⟩,
        "Item deleted successfully")

/-- The ordering used by `SELECT * FROM items ORDER BY date_found DESC`
(line 65): newest `date_found` first. -/
def dateDesc (a b : Row) : Prop := b.date_found ≤ a.date_found

instance : DecidableRel dateDesc := fun a b => by
  unfold dateDesc; infer_instance

instance : IsTotal Row dateDesc :=
  ⟨fun a b => Nat.le_total b.date_found a.date_found⟩

instance : IsTrans Row dateDesc :=
  ⟨fun _ _ _ h h' => Nat.le_trans h' h⟩

/-- Handler `get_items` (lines 57-68): all rows ordered by `date_found`
descending. -/
def get_items (s : Store) : List Row :=
  List.insertionSort dateDesc s.rows

/-- The request body of `POST /items` before pydantic validation: each
field may be present or absent. -/
structure ItemRequest where
  name : Option String
  description : Option String
  location : Option String
  date_found : Option Nat
  contact_info : Option String
  claimed : Option Bool
deriving Repr, DecidableEq

/-- Pydantic validation of the `Item` model: the five non-`Optional`
fields must be present; `claimed` defaults to `False` when absent. -/
def parseItem (req : ItemRequest) : Option Item :=
  match req.name, req.description, req.location, req.date_found,
      req.contact_info with
  | some n, some d, some l, some df, some ci =>
      some ⟨n, d, l, df, ci, req.claimed.getD false⟩
  | _, _, _, _, _ => none

/-- `POST /items`: validate the body, then run `create_item`; `none`
embeds pydantic's 422 rejection of a malformed body. -/
def post_items (s : Store) (req : ItemRequest) : Option (Store × Row) :=
  (parseItem req).map (create_item s)

/-- One external operation against the service. -/
inductive Op where
  | create (item : Item)
  | get (item_id : Nat)
  | listAll
  | claim (item_id : Nat)
  | delete (item_id : Nat)
deriving Repr, DecidableEq

/-- The store after one operation: reads leave it unchanged, and the 404
error paths of `claim_item` and `delete_item` leave it unchanged. -/
def applyOp (s : Store) : Op → Store
  | .create item => (create_item s item).1
  | .get _ => s
  | .listAll => s
  | .claim i =>
      match claim_item s i with
      | .ok (s', _) => s'
      | .error _ => s
  | .delete i =>
      match delete_item s i with
      | .ok (s', _) => s'
      | .error _ => s

/-- The store after a sequence of operations. -/
def runOps (s : Store) : List Op → Store
  | [] => s
  | op :: ops => runOps (applyOp s op) ops

/-- The ids handed out by `create` along a run, in order. -/
def traceIds (s : Store) : List Op → List Nat
  | [] => []
  | op :: ops =>
      match op with
      | .create _ => s.nextId :: traceIds (applyOp s op) ops
      | _ => traceIds (applyOp s op) ops

/-- Well-formedness of a store: every persisted id is below the
AUTOINCREMENT counter.  Holds for `initStore` and is preserved by every
operation. -/
def WF (s : Store) : Prop := ∀ r ∈ s.rows, r.id < s.nextId

instance (s : Store) : Decidable (WF s) := by
  unfold WF; infer_instance

/-! ### Helper lemmas on `lookupRows` -/

theorem lookupRows_nil (i : Nat) : lookupRows [] i = none := rfl

theorem lookupRows_append_of_some {l : List Row} {i : Nat} {r : Row}
    (h : lookupRows l i = some r) (l' : List Row) :
    lookupRows (l ++ l') i = some r := by
  induction l with
  | nil => simp [lookupRows, List.find?] at h
  | cons a t ih =>
      simp only [lookupRows, List.cons_append, List.find?] at h ⊢
      cases ha : (a.id == i) with
      | true => simpa [ha] using h
      | false =>
          rw [ha] at h
          simp only [ha]
          exact ih h

theorem lookupRows_append_of_none {l : List Row} {i : Nat}
    (h : lookupRows l i = none) (l' : List Row) :
    lookupRows (l ++ l') i = lookupRows l' i := by
  induction l with
  | nil => rfl
  | cons a t ih =>
      simp only [lookupRows, List.cons_append, List.find?] at h ⊢
      cases ha : (a.id == i) with
      | true => rw [ha] at h; exact absurd h (by simp)
      | false =>
          rw [ha] at h
          simp only [ha]
          exact ih h

theorem lookupRows_eq_none_of_forall {l : List Row} {i : Nat}
    (h : ∀ r ∈ l, r.id ≠ i) : lookupRows l i = none := by
  induction l with
  | nil => rfl
  | cons a t ih =>
      simp only [lookupRows, List.find?]
      have ha : (a.id == i) = false := by
        simpa using h a (List.mem_cons_self a t)
      rw [ha]
      exact ih fun r hr => h r (List.mem_cons_of_mem a hr)

theorem id_setClaimed (j : Nat) (r : Row) : (setClaimed j r).id = r.id := by
  unfold setClaimed
  split <;> rfl

theorem lookupRows_map_setClaimed (l : List Row) (i j : Nat) :
    lookupRows (l.map (setClaimed j)) i =
      (lookupRows l i).map (setClaimed j) := by
  induction l with
  | nil => rfl
  | cons a t ih =>
      simp only [lookupRows, List.map, List.find?, id_setClaimed]
      cases ha : (a.id == i) with
      | true => rfl
      | false => simpa [lookupRows] using ih

theorem lookupRows_filter_ne {l : List Row} {i j : Nat} (h : i ≠ j) :
    lookupRows (l.filter (fun r => r.id != j)) i = lookupRows l i := by
  induction l with
  | nil => rfl
  | cons a t ih =>
      simp only [lookupRows, List.filter, List.find?]
      cases haj : (a.id != j) with
      | true =>
          simp only [List.find?]
          cases hai : (a.id == i) with
          | true => rfl
          | false => simpa [lookupRows] using ih
      | false =>
          have hai : (a.id == i) = false := by
            have : a.id = j := by simpa using haj
            simp [this, Ne.symm h]
          rw [hai]
          simpa [lookupRows] using ih

theorem lookupRows_filter_self (l : List Row) (j : Nat) :
    lookupRows (l.filter (fun r => r.id != j)) j = none := by
  apply lookupRows_eq_none_of_forall
  intro r hr
  have := List.of_mem_filter hr
  simpa using this

theorem lookup_id {s : Store} {i : Nat} {r : Row}
    (h : lookup s i = some r) : r.id = i := by
  have := List.find?_some h
  simpa using this

theorem lookup_fresh_of_WF {s : Store} (h : WF s) :
    lookupRows s.rows s.nextId = none :=
  lookupRows_eq_none_of_forall fun r hr => Nat.ne_of_lt (h r hr)

/-! ### Witness fixtures -/

/-- A concrete item (the spec's §8 example). -/
def wItem : Item :=
  ⟨"Wallet", "black leather", "Library", 10, "x@y.com", false⟩

/-- The store holding exactly the row created from `wItem`. -/
def s1 : Store := (create_item initStore wItem).1

/-- The row persisted for `wItem`. -/
def wRow : Row :=
  ⟨1, "Wallet", "black leather", "Library", 10, "x@y.com", false⟩

/-- `wRow` after the claim operation. -/
def wRowC : Row :=
  ⟨1, "Wallet", "black leather", "Library", 10, "x@y.com", true⟩

/-- A create request that supplies `claimed = true`. -/
def cItem : Item :=
  ⟨"Umbrella", "red", "Cafeteria", 12, "a@b.org", true⟩

/-- A create request body that omits `description`. -/
def reqMissingDescription : ItemRequest :=
  ⟨some "Wallet", none, some "Library", some 10, some "x@y.com", none⟩

/-! ### Claims -/

/-- C1: creating an item and fetching it by the id returned from create
yields a record with the submitted `name`, `description`, `location`,
`date_found` and `contact_info`, and `claimed = false` (the `INSERT`
omits the `claimed` column, so the schema default `FALSE` is stored). -/
theorem create_then_get_roundtrip (s : Store) (item : Item) (h : WF s) :
    get_item (create_item s item).1 (create_item s item).2.id =
      .ok { id := s.nextId, name := item.name,
            description := item.description, location := item.location,
            date_found := item.date_found,
            contact_info := item.contact_info, claimed := false } := by
  have hnone : lookupRows s.rows s.nextId = none := lookup_fresh_of_WF h
  simp only [get_item, lookup, create_item]
  rw [lookupRows_append_of_none hnone]
  simp [lookupRows, List.find?]

/-- Witness for C1 at the one-item example. -/
theorem create_then_get_roundtrip_witness :
    WF initStore ∧
    get_item (create_item initStore wItem).1
        (create_item initStore wItem).2.id = .ok wRow :=
  ⟨by decide, create_then_get_roundtrip initStore wItem (by decide)⟩

/-- C2 counterexample: when the request body supplies `claimed = true`
(the pydantic `Item` model accepts it), `create_item` echoes
`claimed = true` in its response while the `INSERT` persists the schema
default `claimed = FALSE`, so the returned record differs from the
stored one. -/
theorem create_response_ne_stored :
    (create_item initStore cItem).2.claimed = true ∧
    (lookup (create_item initStore cItem).1
        (create_item initStore cItem).2.id).map Row.claimed = some false ∧
    lookup (create_item initStore cItem).1
        (create_item initStore cItem).2.id ≠
      some (create_item initStore cItem).2 := by
  refine ⟨rfl, rfl, ?_⟩
  intro hEq
  have hc := congrArg (Option.map Row.claimed) hEq
  simp only [Option.map_some] at hc
  exact Bool.noConfusion (Option.some.inj hc)

/-- C2 amended: for every create request whose `claimed` field is false
(in particular every request that omits `claimed`, since pydantic
defaults it to false), the record returned by create equals the record
persisted in the store, with the new id included and
`claimed = false`. -/
theorem create_response_eq_stored_of_claimed_false (s : Store)
    (item : Item) (hcl : item.claimed = false) (h : WF s) :
    (create_item s item).2.id = s.nextId ∧
    (create_item s item).2.claimed = false ∧
    lookup (create_item s item).1 (create_item s item).2.id =
      some (create_item s item).2 := by
  have hnone : lookupRows s.rows s.nextId = none := lookup_fresh_of_WF h
  refine ⟨rfl, hcl, ?_⟩
  simp only [lookup, create_item]
  rw [lookupRows_append_of_none hnone]
  simp [lookupRows, List.find?, hcl]

/-- Witness for the amended C2 at the one-item example. -/
theorem create_response_eq_stored_witness :
    wItem.claimed = false ∧ WF initStore ∧
    lookup (create_item initStore wItem).1
        (create_item initStore wItem).2.id =
      some (create_item initStore wItem).2 :=
  ⟨rfl, by decide,
    (create_response_eq_stored_of_claimed_false initStore wItem rfl
      (by decide)).2.2⟩

/-- C8: fetching an id absent from the store always returns the 404
`HTTPException` — `get_item` is total and this is its only failure
mode on an unknown id. -/
theorem get_unknown_notFound (s : Store) (i : Nat)
    (h : lookup s i = none) :
    get_item s i = .error ⟨404, "Item not found"⟩ := by
  unfold get_item
  rw [h]

/-- Witness for C8: fetching id 7 from the one-item store. -/
theorem get_unknown_notFound_witness :
    lookup s1 7 = none ∧
    get_item s1 7 = .error ⟨404, "Item not found"⟩ :=
  ⟨rfl, get_unknown_notFound s1 7 rfl⟩

/-- C5: `get_items` returns exactly the stored rows (a permutation of
the table), ordered by `date_found` descending, and returns `[]` on an
empty store; it has no error path. -/
theorem get_items_ordered (s : Store) (n : Nat) :
    (get_items s).Perm s.rows ∧
    List.Sorted dateDesc (get_items s) ∧
    get_items ⟨[], n⟩ = [] :=
  ⟨List.perm_insertionSort dateDesc s.rows,
    List.sorted_insertionSort dateDesc s.rows, rfl⟩

/-- C3: claiming an id present in the store succeeds with the success
message and a subsequent fetch shows `claimed = true`; claiming an
absent id raises the 404 `HTTPException` and leaves the store
unchanged. -/
theorem claim_present_absent (s : Store) (i : Nat) :
    (∀ r, lookup s i = some r →
      claim_item s i =
        .ok (⟨s.rows.map (setClaimed i), s.nextId⟩,
          "Item claimed successfully") ∧
      get_item ⟨s.rows.map (setClaimed i), s.nextId⟩ i =
        .ok { r with claimed := true }) ∧
    (lookup s i = none →
      claim_item s i = .error ⟨404, "Item not found"⟩ ∧
      applyOp s (.claim i) = s) := by
  constructor
  · intro r hr
    constructor
    · unfold claim_item
      rw [hr]
    · have hid : (r.id == i) = true := by simp [lookup_id hr]
      have h2 : lookup ⟨s.rows.map (setClaimed i), s.nextId⟩ i =
          some { r with claimed := true } := by
        unfold lookup
        rw [lookupRows_map_setClaimed]
        unfold lookup at hr
        rw [hr]
        simp [setClaimed, hid]
      unfold get_item
      rw [h2]
  · intro hn
    constructor
    · unfold claim_item
      rw [hn]
    · simp only [applyOp, claim_item]
      rw [hn]

/-- Witness for C3: both branches at the one-item store. -/
theorem claim_present_absent_witness :
    lookup s1 1 = some wRow ∧
    claim_item s1 1 =
      .ok (⟨s1.rows.map (setClaimed 1), s1.nextId⟩,
        "Item claimed successfully") ∧
    get_item ⟨s1.rows.map (setClaimed 1), s1.nextId⟩ 1 = .ok wRowC ∧
    lookup s1 9 = none ∧
    claim_item s1 9 = .error ⟨404, "Item not found"⟩ := by
  have h := (claim_present_absent s1 1).1 wRow rfl
  exact ⟨rfl, h.1, h.2, rfl, ((claim_present_absent s1 9).2 rfl).1⟩

/-- C4: deleting an id present in the store succeeds with the success
message and removes the item (it appears in no subsequent fetch or
listing); deleting the same id again raises the 404 `HTTPException`
and leaves the store unchanged. -/
theorem delete_present_absent (s : Store) (i : Nat) :
    (∀ r, lookup s i = some r →
      delete_item s i =
        .ok (⟨s.rows.filter (fun x => x.id != i), s.nextId⟩,
          "Item deleted successfully") ∧
      get_item ⟨s.rows.filter (fun x => x.id != i), s.nextId⟩ i =
        .error ⟨404, "Item not found"⟩ ∧
      (∀ x ∈ get_items ⟨s.rows.filter (fun x => x.id != i), s.nextId⟩,
        x.id ≠ i) ∧
      delete_item ⟨s.rows.filter (fun x => x.id != i), s.nextId⟩ i =
        .error ⟨404, "Item not found"⟩ ∧
      applyOp ⟨s.rows.filter (fun x => x.id != i), s.nextId⟩
          (.delete i) =
        ⟨s.rows.filter (fun x => x.id != i), s.nextId⟩) ∧
    (lookup s i = none →
      delete_item s i = .error ⟨404, "Item not found"⟩ ∧
      applyOp s (.delete i) = s) := by
  have hgone :
      lookup ⟨s.rows.filter (fun x => x.id != i), s.nextId⟩ i = none :=
    lookupRows_filter_self s.rows i
  constructor
  · intro r hr
    refine ⟨?_, ?_, ?_, ?_, ?_⟩
    · unfold delete_item
      rw [hr]
    · unfold get_item
      rw [hgone]
    · intro x hx
      have hmem : x ∈ s.rows.filter (fun x => x.id != i) := by
        have := (List.mem_insertionSort dateDesc).mp hx
        exact this
      have := List.of_mem_filter hmem
      simpa using this
    · unfold delete_item
      rw [hgone]
    · simp only [applyOp, delete_item]
      rw [hgone]
  · intro hn
    constructor
    · unfold delete_item
      rw [hn]
    · simp only [applyOp, delete_item]
      rw [hn]

/-- Witness for C4: delete once, then delete again, at the one-item
store. -/
theorem delete_present_absent_witness :
    lookup s1 1 = some wRow ∧
    delete_item s1 1 =
      .ok (⟨s1.rows.filter (fun x => x.id != 1), s1.nextId⟩,
        "Item deleted successfully") ∧
    delete_item ⟨s1.rows.filter (fun x => x.id != 1), s1.nextId⟩ 1 =
      .error ⟨404, "Item not found"⟩ := by
  have h := (delete_present_absent s1 1).1 wRow rfl
  exact ⟨rfl, h.1, h.2.2.2.1⟩

theorem setClaimed_idem (i : Nat) (r : Row) :
    setClaimed i (setClaimed i r) = setClaimed i r := by
  unfold setClaimed
  cases h : (r.id == i) with
  | true => simp [h]
  | false => simp [h]

/-- C7: the claim operation is idempotent in effect — for an id present
in the store, claiming twice yields the same store as claiming once,
and the second claim still reports success. -/
theorem claim_idempotent (s : Store) (i : Nat) (r : Row)
    (h : lookup s i = some r) :
    applyOp (applyOp s (.claim i)) (.claim i) = applyOp s (.claim i) ∧
    claim_item (applyOp s (.claim i)) i =
      .ok (applyOp s (.claim i), "Item claimed successfully") := by
  have h1 : applyOp s (.claim i) =
      ⟨s.rows.map (setClaimed i), s.nextId⟩ := by
    simp only [applyOp, claim_item]
    rw [h]
  have h2 : lookup ⟨s.rows.map (setClaimed i), s.nextId⟩ i =
      some (setClaimed i r) := by
    unfold lookup
    rw [lookupRows_map_setClaimed]
    unfold lookup at h
    rw [h]
    rfl
  have hmap : (s.rows.map (setClaimed i)).map (setClaimed i) =
      s.rows.map (setClaimed i) := by
    rw [List.map_map]
    exact List.map_congr_left fun x _ => setClaimed_idem i x
  constructor
  · rw [h1]
    simp only [applyOp, claim_item]
    rw [h2]
    simp [hmap]
  · rw [h1]
    simp only [claim_item]
    rw [h2]
    simp [hmap]

/-- Witness for C7 at the one-item store. -/
theorem claim_idempotent_witness :
    lookup s1 1 = some wRow ∧
    applyOp (applyOp s1 (.claim 1)) (.claim 1) = applyOp s1 (.claim 1) :=
  ⟨rfl, (claim_idempotent s1 1 wRow rfl).1⟩

/-! ### Characterisation of `applyOp` on each operation -/

theorem applyOp_claim_of_none {s : Store} {j : Nat}
    (hl : lookup s j = none) : applyOp s (.claim j) = s := by
  simp only [applyOp, claim_item]
  rw [hl]

theorem applyOp_claim_of_some {s : Store} {j : Nat} {r0 : Row}
    (hl : lookup s j = some r0) :
    applyOp s (.claim j) = ⟨s.rows.map (setClaimed j), s.nextId⟩ := by
  simp only [applyOp, claim_item]
  rw [hl]

theorem applyOp_delete_of_none {s : Store} {j : Nat}
    (hl : lookup s j = none) : applyOp s (.delete j) = s := by
  simp only [applyOp, delete_item]
  rw [hl]

theorem applyOp_delete_of_some {s : Store} {j : Nat} {r0 : Row}
    (hl : lookup s j = some r0) :
    applyOp s (.delete j) =
      ⟨s.rows.filter (fun x => x.id != j), s.nextId⟩ := by
  simp only [applyOp, delete_item]
  rw [hl]

/-- One-step form of the claimed-flag invariant: whatever one operation
does, a surviving row's `claimed` flag never goes from `true` back to
`false`, and a row that appears at a previously absent id (a freshly
created row) carries `claimed = false`. -/
theorem claimed_step (s : Store) (op : Op) (i : Nat) :
    (∀ r r', lookup s i = some r → lookup (applyOp s op) i = some r' →
      r.claimed = true → r'.claimed = true) ∧
    (∀ r', lookup s i = none → lookup (applyOp s op) i = some r' →
      r'.claimed = false) := by
  have hid : applyOp s op = s →
      (∀ r r', lookup s i = some r → lookup (applyOp s op) i = some r' →
        r.claimed = true → r'.claimed = true) ∧
      (∀ r', lookup s i = none → lookup (applyOp s op) i = some r' →
        r'.claimed = false) := by
    intro heq
    constructor
    · intro r r' hr hr' hc
      rw [heq, hr] at hr'
      have h' := Option.some.inj hr'
      subst h'
      exact hc
    · intro r' hn hr'
      rw [heq, hn] at hr'
      exact Option.noConfusion hr'
  cases op with
  | get j => exact hid rfl
  | listAll => exact hid rfl
  | create item =>
      constructor
      · intro r r' hr hr' hc
        simp only [applyOp, create_item] at hr'
        unfold lookup at hr hr'
        rw [lookupRows_append_of_some hr] at hr'
        have h' := Option.some.inj hr'
        subst h'
        exact hc
      · intro r' hn hr'
        simp only [applyOp, create_item] at hr'
        unfold lookup at hn hr'
        rw [lookupRows_append_of_none hn] at hr'
        cases hsid : (s.nextId == i) with
        | true =>
            simp [lookupRows, List.find?, hsid] at hr'
            simp [← hr']
        | false =>
            simp [lookupRows, List.find?, hsid] at hr'
  | claim j =>
      cases hl : lookup s j with
      | none => exact hid (applyOp_claim_of_none hl)
      | some r0 =>
          have heq := applyOp_claim_of_some hl
          have hmap :
              lookup ⟨s.rows.map (setClaimed j), s.nextId⟩ i =
                (lookup s i).map (setClaimed j) :=
            lookupRows_map_setClaimed s.rows i j
          constructor
          · intro r r' hr hr' hc
            rw [heq, hmap, hr] at hr'
            have h' := Option.some.inj hr'
            subst h'
            unfold setClaimed
            split
            · rfl
            · exact hc
          · intro r' hn hr'
            rw [heq, hmap, hn] at hr'
            exact Option.noConfusion hr'
  | delete j =>
      cases hl : lookup s j with
      | none => exact hid (applyOp_delete_of_none hl)
      | some r0 =>
          have heq := applyOp_delete_of_some hl
          by_cases hij : i = j
          · subst hij
            have hnone := lookupRows_filter_self s.rows i
            constructor
            · intro r r' hr hr' hc
              rw [heq] at hr'
              unfold lookup at hr'
              rw [hnone] at hr'
              exact Option.noConfusion hr'
            · intro r' hn hr'
              rw [heq] at hr'
              unfold lookup at hr'
              rw [hnone] at hr'
              exact Option.noConfusion hr'
          · have hkeep :
                lookup ⟨s.rows.filter (fun x => x.id != j), s.nextId⟩ i =
                  lookup s i :=
              lookupRows_filter_ne hij
            constructor
            · intro r r' hr hr' hc
              rw [heq, hkeep, hr] at hr'
              have h' := Option.some.inj hr'
              subst h'
              exact hc
            · intro r' hn hr'
              rw [heq, hkeep, hn] at hr'
              exact Option.noConfusion hr'

/-- C6: in every state reachable from the fresh database by a sequence
of operations, the `claimed` flag only ever transitions false→true: a
row surviving any next operation keeps `claimed = true` once set, and a
row appearing at a previously absent id was just created and carries
`claimed = false`. -/
theorem claimed_flag_monotone (ops : List Op) (op : Op) (i : Nat) :
    (∀ r r', lookup (runOps initStore ops) i = some r →
      lookup (applyOp (runOps initStore ops) op) i = some r' →
      r.claimed = true → r'.claimed = true) ∧
    (∀ r', lookup (runOps initStore ops) i = none →
      lookup (applyOp (runOps initStore ops) op) i = some r' →
      r'.claimed = false) :=
  claimed_step (runOps initStore ops) op i

/-- Witness for C6: after creating `wItem` and claiming id 1, a further
claim keeps `claimed = true`. -/
theorem claimed_flag_monotone_witness :
    lookup (runOps initStore [Op.create wItem, Op.claim 1]) 1 =
      some wRowC ∧
    wRowC.claimed = true :=
  ⟨rfl,
    (claimed_flag_monotone [Op.create wItem, Op.claim 1]
      (Op.claim 1) 1).1 wRowC wRowC rfl rfl rfl⟩

/-! ### Monotonicity of the AUTOINCREMENT counter -/

theorem nextId_applyOp (s : Store) (op : Op) :
    s.nextId ≤ (applyOp s op).nextId := by
  cases op with
  | create item => exact Nat.le_succ _
  | get j => exact Nat.le_refl _
  | listAll => exact Nat.le_refl _
  | claim j =>
      cases hl : lookup s j with
      | none => rw [applyOp_claim_of_none hl]
      | some r0 => rw [applyOp_claim_of_some hl]
  | delete j =>
      cases hl : lookup s j with
      | none => rw [applyOp_delete_of_none hl]
      | some r0 => rw [applyOp_delete_of_some hl]

theorem nextId_runOps (s : Store) (ops : List Op) :
    s.nextId ≤ (runOps s ops).nextId := by
  induction ops generalizing s with
  | nil => exact Nat.le_refl _
  | cons op ops ih =>
      exact Nat.le_trans (nextId_applyOp s op) (ih (applyOp s op))

theorem traceIds_lt (ops : List Op) :
    ∀ (s : Store), ∀ j ∈ traceIds s ops, j < (runOps s ops).nextId := by
  induction ops with
  | nil =>
      intro s j hj
      cases hj
  | cons op ops ih =>
      intro s j hj
      cases op with
      | create item =>
          simp only [traceIds] at hj
          rcases List.mem_cons.mp hj with h | h
          · subst h
            exact Nat.lt_of_lt_of_le (Nat.lt_succ_self _)
              (nextId_runOps (applyOp s (.create item)) ops)
          · exact ih _ j h
      | get k =>
          simp only [traceIds] at hj
          exact ih _ j hj
      | listAll =>
          simp only [traceIds] at hj
          exact ih _ j hj
      | claim k =>
          simp only [traceIds] at hj
          exact ih _ j hj
      | delete k =>
          simp only [traceIds] at hj
          exact ih _ j hj

/-- C10: along any run from the fresh database, the id handed out by a
new create is strictly greater than every id previously assigned —
SQLite's AUTOINCREMENT counter never decreases and is untouched by
deletes, so ids are never reused. -/
theorem ids_strictly_increasing (ops : List Op) (item : Item) (j : Nat)
    (h : j ∈ traceIds initStore ops) :
    j < (create_item (runOps initStore ops) item).2.id :=
  traceIds_lt ops initStore j h

/-- Witness for C10: after creating id 1 and deleting it, the next
create receives id 2, strictly above the previously assigned id 1. -/
theorem ids_strictly_increasing_witness :
    1 ∈ traceIds initStore [Op.create wItem, Op.delete 1] ∧
    1 < (create_item (runOps initStore [Op.create wItem, Op.delete 1])
          wItem).2.id :=
  ⟨by decide,
    ids_strictly_increasing [Op.create wItem, Op.delete 1] wItem 1
      (by decide)⟩

/-- C9 counterexample: a create request that omits `description` is
rejected by the pydantic `Item` model (`description : str` is required,
not `Optional`), so it never reaches the store. -/
theorem create_rejects_missing_description :
    post_items initStore reqMissingDescription = none := rfl

theorem parseItem_eq_none_of_missing (req : ItemRequest)
    (h : req.description = none ∨ req.location = none ∨
      req.contact_info = none) :
    parseItem req = none := by
  obtain ⟨na, de, lo, dfo, cio, cl⟩ := req
  cases na <;> cases de <;> cases lo <;> cases dfo <;> cases cio <;>
    simp_all [parseItem]

/-- C9 amended: only `claimed` is optional in a create request: a
request omitting `description`, `location` or `contact_info` is
rejected by validation, while a request supplying those five fields and
omitting `claimed` is accepted and persisted with `claimed = false`. -/
theorem optional_claimed_only (s : Store) (req : ItemRequest)
    (h : req.description = none ∨ req.location = none ∨
      req.contact_info = none) :
    post_items s req = none ∧
    ∀ n d l df ci,
      post_items s ⟨some n, some d, some l, some df, some ci, none⟩ =
        some (create_item s ⟨n, d, l, df, ci, false⟩) := by
  constructor
  · unfold post_items
    rw [parseItem_eq_none_of_missing req h]
    rfl
  · intro n d l df ci
    rfl

/-- Witness for the amended C9: the request missing `description` is
rejected. -/
theorem optional_claimed_only_witness :
    reqMissingDescription.description = none ∧
    post_items initStore reqMissingDescription = none :=
  ⟨rfl,
    (optional_claimed_only initStore reqMissingDescription
      (Or.inl rfl)).1⟩
